import Mathlib

/-!
Shallow embedding of the blackswan-mini trading experiment
(src/trader.py, src/stream.py, src/model.py, src/util.py) and proofs of
the specification claims about it.

Conventions: pandas dataframes become Lean lists of rows; float arithmetic
is modelled over ℚ; Python code that can raise becomes Except String;
Python code that can return None becomes Option.
-/

namespace BlackSwan

/-! ## Data model: one OHLCV bar row (util.BAR_COLMAPS columns plus index) -/

/-- One row of the rolling-bars table, keyed by (timestamp, symbol) with the
ohlcv columns, as built in AIOTrader._on_bar and util.download_stock_data. -/
structure BarRow where
  timestamp : Nat
  symbol : String
  bopen : ℚ
  high : ℚ
  low : ℚ
  close : ℚ
  volume : ℚ
deriving Repr, DecidableEq

/-! ## AIOTrader.backtest (trader.py lines 221-285)

The loop body applies the per-row decision to the running balance and the
held-share count, then refreshes the holding balance; decisions are the
values returned by the model, modelled as rationals. -/

/-- State carried through the backtest loop of trader.py: running_balance,
holding_balance and holding_shares. -/
structure BTState where
  running_balance : ℚ
  holding_balance : ℚ
  holding_shares : ℤ
deriving Repr, DecidableEq

/-- Starting balance set at step 0 of AIOTrader.backtest. -/
def starting_balance : ℚ := 10000

/-- Initial backtest state: running = holding = starting balance, 0 shares. -/
def btInit : BTState := ⟨starting_balance, starting_balance, 0⟩

/-- Body of the per-row loop in AIOTrader.backtest (trader.py 253-268):
decision 1 buys one share at close, decision -1 sells one share at close,
anything else leaves balance and shares alone; the holding balance is then
set to shares times close. -/
def backtestStep (decision : ℚ) (close : ℚ) (st : BTState) : BTState :=
  let st1 : BTState :=
    if decision = 1 then
      ⟨st.running_balance - close, st.holding_balance, st.holding_shares + 1⟩
    else if decision = -1 then
      ⟨st.running_balance + close, st.holding_balance, st.holding_shares - 1⟩
    else st
  ⟨st1.running_balance, (st1.holding_shares : ℚ) * close, st1.holding_shares⟩

/-- The backtest loop over the labelled rows of one symbol; each row carries
the decision made for it and its close price. -/
def backtestLoop (rows : List (ℚ × ℚ)) : BTState :=
  rows.foldl (fun st dc => backtestStep dc.1 dc.2 st) btInit

/-- Close price of the last labelled row (the value bound to row["close"]
after the loop); 0 is a placeholder never used for non-empty rows. -/
def lastClose (rows : List (ℚ × ℚ)) : ℚ :=
  ((rows.getLast?).map Prod.snd).getD 0

/-- Ending balance after the final rebalance of AIOTrader.backtest
(trader.py 272): the loop balance plus held shares liquidated at the last
close. -/
def backtestEnding (rows : List (ℚ × ℚ)) : ℚ :=
  (backtestLoop rows).running_balance +
    ((backtestLoop rows).holding_shares : ℚ) * lastClose rows

/-- ROI as computed in AIOTrader.backtest (trader.py 273):
1 + (ending - starting) / starting. -/
def backtestRoi (rows : List (ℚ × ℚ)) : ℚ :=
  1 + (backtestEnding rows - starting_balance) / starting_balance

/-! ## TertiaryModel (model.py) -/

/-- The per-symbol model of model.py: a KNeighborsRegressor with
n_neighbors = 3. `fitted` holds the training rows (features, label) once
train has fit the regressor, and is none for a freshly constructed model. -/
structure TertiaryModel where
  fitted : Option (List (List ℚ × ℚ))
deriving Repr, DecidableEq

/-- TertiaryModel.__init__ (model.py 18-20): an unfitted
KNeighborsRegressor(n_neighbors=3). -/
def TertiaryModel.init : TertiaryModel := ⟨none⟩

/-- Squared Euclidean distance between two feature vectors. -/
def dist2 (x y : List ℚ) : ℚ :=
  ((x.zip y).map (fun p => (p.1 - p.2) ^ 2)).sum

/-- Insert a (distance, label) pair into a list sorted by distance, keeping
earlier training rows first on ties. -/
def insertByDist (p : ℚ × ℚ) : List (ℚ × ℚ) → List (ℚ × ℚ)
  | [] => [p]
  | q :: rest => if p.1 < q.1 then p :: q :: rest else q :: insertByDist p rest

/-- Sort (distance, label) pairs by distance (stable insertion sort). -/
def sortByDist : List (ℚ × ℚ) → List (ℚ × ℚ)
  | [] => []
  | p :: rest => insertByDist p (sortByDist rest)

/-- KNeighborsRegressor.predict on one query point: the mean of the labels
of the n_neighbors = 3 nearest training rows; an unfitted regressor raises
NotFittedError, and fitting fewer samples than n_neighbors makes predict
raise as well. -/
def TertiaryModel.predict (m : TertiaryModel) (x : List ℚ) : Except String ℚ :=
  match m.fitted with
  | none => Except.error "NotFittedError"
  | some tr =>
    if tr.length < 3 then Except.error "ExpectedNNeighborsLeNSamples"
    else
      let neigh := (sortByDist (tr.map (fun p => (dist2 x p.1, p.2)))).take 3
      Except.ok ((neigh.map Prod.snd).sum / (neigh.length : ℚ))

/-- TertiaryModel.train (model.py 22-39): train_test_split holds out
ceil((1 - tt_split) * n) test rows and the KNN is fit on the remaining
training rows. The random shuffle of train_test_split is modelled as the
identity permutation. -/
def TertiaryModel.train (_m : TertiaryModel) (X_and_y : List (List ℚ × ℚ))
    (tt_split : ℚ) : TertiaryModel :=
  ⟨some (X_and_y.take (X_and_y.length - (⌈(1 - tt_split) * (X_and_y.length : ℚ)⌉).toNat))⟩

/-- TertiaryModel.make_decision (model.py 80-89): takes the last row of the
feature-engineered frame (tail(1)) and returns the raw KNN prediction for
it, unmodified. -/
def TertiaryModel.make_decision (m : TertiaryModel)
    (feature_engineered_bars : List (List ℚ)) : Except String ℚ :=
  match feature_engineered_bars.getLast? with
  | none => Except.error "EmptyFrame"
  | some latest => m.predict latest

/-- The decisions the trader.py backtest computes for one symbol: the model
is the freshly constructed TertiaryModel from AIOTrader.__init__ (line 78);
the training step 2a of backtest (trader.py 248-250) is an empty comment
block, so no train call happens before the per-row make_decision calls,
each of which receives the row as a one-row frame (row.to_frame().T). -/
def backtestDecisions (with_y : List (List ℚ)) : List (Except String ℚ) :=
  with_y.map (fun row => TertiaryModel.init.make_decision [row])

/-- Five labelled training rows whose 80-20 split fits the first four; the
three rows nearest to the query [0] carry the labels 1, 1, -1. -/
def c3TrainingRows : List (List ℚ × ℚ) :=
  [([0], 1), ([1], 1), ([2], -1), ([3], -1), ([100], 1)]

/-- A concretely trained model used to evaluate make_decision. -/
def c3Model : TertiaryModel := TertiaryModel.init.train c3TrainingRows (4/5)

/-! ## The rolling-bars table (trader.py) -/

/-- AIOTrader._on_bar (trader.py 106-110): the incoming bar becomes one row
appended to the rolling-bars table via pd.concat. -/
def onBarAppend (rolling_bars : List BarRow) (b : BarRow) : List BarRow :=
  rolling_bars ++ [b]

/-- AIOTrader._fill_rolling_bars (trader.py 303-311): assigns the freshly
downloaded five-day window to self.rolling_bars, discarding the previous
value of the table. -/
def fillRollingBars (rolling_bars : List BarRow) (download : List BarRow) :
    List BarRow :=
  download

/-- A concrete bar row. -/
def exRow : BarRow := ⟨0, "AAPL", 1, 1, 1, 1, 1⟩

/-! ## Order submission in AIOTrader._on_bar (trader.py 112-140) -/

/-- Order sides of alpaca.trading.enums.OrderSide. -/
inductive Side where
  | buy
  | sell
deriving Repr, DecidableEq

/-- SIDE_CONVERTER (trader.py 34): the dict {1: OrderSide.BUY,
-1: OrderSide.SELL}; any other key raises KeyError, modelled as none. -/
def SIDE_CONVERTER (decision : ℚ) : Option Side :=
  if decision = 1 then some Side.buy
  else if decision = -1 then some Side.sell
  else none

/-- MIN_ROI (trader.py 31): minimum backtest ROI that enables trading. -/
def MIN_ROI : ℚ := 103/100

/-- The trading flag backtest leaves for a symbol (trader.py 280-285):
enabled exactly when the symbol's backtest ROI exceeds MIN_ROI. -/
def tradingFlagAfterBacktest (roi : ℚ) : Bool := decide (MIN_ROI < roi)

/-- Python round to the nearest integer with ties going to the even
integer, as round() does. -/
def roundHalfEven (x : ℚ) : ℤ :=
  if x - ⌊x⌋ < 1/2 then ⌊x⌋
  else if 1/2 < x - ⌊x⌋ then ⌊x⌋ + 1
  else if ⌊x⌋ % 2 = 0 then ⌊x⌋ else ⌊x⌋ + 1

/-- Python round(x, 2), used for the limit price in _on_bar. -/
def round2 (x : ℚ) : ℚ := (roundHalfEven (x * 100) : ℚ) / 100

/-- A LimitOrderRequest as built in _on_bar (trader.py 131-137). -/
structure LimitOrderRequest where
  symbol : String
  limit_price : ℚ
  qty : ℕ
  side : Side
deriving Repr, DecidableEq

/-- The order-submission logic of AIOTrader._on_bar (trader.py 112-140):
return early with no order when the symbol's trading flag is off or the
decision is 0; otherwise build and submit a limit order for quantity 1 at
the close rounded to 2 decimals, with side SIDE_CONVERTER[decision]
(a KeyError for a decision outside that dict aborts without an order). -/
def onBarOrder (trading : Bool) (decision : ℚ) (close : ℚ) (symbol : String) :
    Except String (Option LimitOrderRequest) :=
  if trading = false then Except.ok none
  else if decision = 0 then Except.ok none
  else
    match SIDE_CONVERTER decision with
    | none => Except.error "KeyError"
    | some side => Except.ok (some ⟨symbol, round2 close, 1, side⟩)

/-! ## util.download_stock_data (util.py 78-163) -/

/-- The parsed finnhub candle response for one symbol: the per-row status
column s and the parsed ohlcv rows. -/
structure CandleResponse where
  status : List String
  rows : List BarRow
deriving Repr, DecidableEq

/-- The body of the per-symbol try block (util.py 113-150): a failed fetch
or parse propagates its exception; a response whose status column is not
all ok raises ValueError; otherwise the parsed rows are kept. -/
def processSymbol (resp : Except String CandleResponse) :
    Except String (List BarRow) :=
  match resp with
  | Except.error e => Except.error e
  | Except.ok r =>
    if r.status.all (fun st => st = "ok") then Except.ok r.rows
    else Except.error "ValueError"

/-- util.download_stock_data over a list of symbols. fetch takes the symbol
and an attempt number; the code performs exactly attempt 0 for each symbol.
Parsed rows accumulate into total; the except branch logs and re-raises the
same exception, which aborts the loop and discards the accumulated rows. -/
def download_stock_data (symbols : List String)
    (fetch : String → ℕ → Except String CandleResponse) :
    Except String (List BarRow) :=
  match symbols with
  | [] => Except.ok []
  | s :: rest =>
    match processSymbol (fetch s 0) with
    | Except.error e => Except.error e
    | Except.ok df =>
      match download_stock_data rest fetch with
      | Except.error e => Except.error e
      | Except.ok t => Except.ok (df ++ t)

/-! ## The stream.py revision -/

/-- A labelled row of the stream.py backtest frame: its close price and the
remaining feature columns. -/
structure StreamRow where
  close : ℚ
  features : List ℚ
deriving Repr, DecidableEq

/-- AIOTrader._make_decision (stream.py 244-246): the body is pass, so the
call returns None for every input frame. -/
def streamMakeDecision (_bars : StreamRow) : Option String := none

/-- The per-row loop body of the stream.py backtest (stream.py 190-203):
the decision is compared against the strings buy and sell. -/
def streamBacktestStep (decision : Option String) (close : ℚ) (st : ℚ × ℤ) :
    ℚ × ℤ :=
  if decision = some "buy" then (st.1 - close, st.2 + 1)
  else if decision = some "sell" then (st.1 + close, st.2 - 1)
  else st

/-- The stream.py backtest loop for one symbol, tracking running balance
and held shares from (10000, 0), with the decision for each row computed
by _make_decision. -/
def streamBacktest (rows : List StreamRow) : ℚ × ℤ :=
  rows.foldl
    (fun st row => streamBacktestStep (streamMakeDecision row) row.close st)
    (starting_balance, 0)

/-! ## util.market_open_at_time (util.py 166-177) -/

/-- A Python runtime value occurring while evaluating the return expression
of market_open_at_time: a bool or a timezone-aware time of day (seconds
since midnight UTC). -/
inductive PyVal where
  | pyBool (b : Bool)
  | pyTime (secs : ℕ)
deriving Repr, DecidableEq

/-- Python truthiness of these values. -/
def pyTruthy : PyVal → Bool
  | PyVal.pyBool b => b
  | PyVal.pyTime _ => true

/-- Python <= on these values: aware times compare with aware times and
bools with bools; comparing a bool with a time raises TypeError. -/
def pyLe (a b : PyVal) : Except String PyVal :=
  match a, b with
  | PyVal.pyTime x, PyVal.pyTime y => Except.ok (PyVal.pyBool (decide (x ≤ y)))
  | PyVal.pyBool x, PyVal.pyBool y => Except.ok (PyVal.pyBool (!x || y))
  | _, _ => Except.error "TypeError: not supported between instances"

/-- Python bitwise | on these values: defined between bools, but
unsupported between a bool and a datetime.time, raising TypeError. -/
def pyBitOr (a b : PyVal) : Except String PyVal :=
  match a, b with
  | PyVal.pyBool x, PyVal.pyBool y => Except.ok (PyVal.pyBool (x || y))
  | _, _ => Except.error "TypeError: unsupported operand types for |"

/-- time(14, 30, 0, tzinfo=utc) as seconds since midnight. -/
def marketStart : ℕ := 14 * 3600 + 30 * 60

/-- time(21, 0, 0, tzinfo=utc) as seconds since midnight. -/
def marketEnd : ℕ := 21 * 3600

/-- util.market_open_at_time as Python evaluates it: | binds tighter than
comparisons, so the return expression parses as the chained comparison
((end <= start and (start <= t or t <= end)) | start) <= t <= end, with
short-circuiting and / or and a left-to-right chained comparison. -/
def market_open_at_time (t : ℕ) : Except String PyVal := do
  let startv := PyVal.pyTime marketStart
  let endv := PyVal.pyTime marketEnd
  let tv := PyVal.pyTime t
  let c1 ← pyLe endv startv
  let p ←
    if pyTruthy c1 then do
      let a ← pyLe startv tv
      if pyTruthy a then pure a else pyLe tv endv
    else pure c1
  let left ← pyBitOr p startv
  let c2 ← pyLe left tv
  if pyTruthy c2 then pyLe tv endv else pure c2

/-- The behaviour the docstring of market_open_at_time describes: true
exactly when t lies between 14:30:00 and 21:00:00 UTC inclusive. -/
def market_open_at_time_documented (t : ℕ) : Bool :=
  decide (marketStart ≤ t ∧ t ≤ marketEnd)

/-! ## Module-level names imported from util -/

/-- The module-level names util.py defines or binds. -/
def utilDefinedNames : List String :=
  ["utc", "USING_TIMEZONE", "DTFORMAT", "BAR_COLMAPS", "get_logger",
   "logger", "get_env_var", "resample_stock_data", "download_stock_data",
   "market_open_at_time", "get_bars_for_symbol"]

/-- The names model.py imports from util (model.py line 4). -/
def modelUtilNames : List String := ["fibonacci", "get_logger"]

/-- The names trader.py imports from util (trader.py lines 2-8). -/
def traderUtilNames : List String :=
  ["fibonacci", "get_bars_for_symbol", "get_env_var", "get_logger",
   "download_stock_data"]

/-- The names stream.py imports from util (stream.py lines 2-8). -/
def streamUtilNames : List String :=
  ["fibonacci", "get_bars_for_symbol", "get_env_var", "get_logger",
   "download_stock_data"]

/-- Decidable equality for the results of the fallible model operations. -/
instance exceptDecEq : DecidableEq (Except String ℚ) := fun a b =>
  match a, b with
  | Except.ok x, Except.ok y =>
    if h : x = y then isTrue (by simp [h]) else isFalse (by simp [h])
  | Except.error x, Except.error y =>
    if h : x = y then isTrue (by simp [h]) else isFalse (by simp [h])
  | Except.ok _, Except.error _ => isFalse (by simp)
  | Except.error _, Except.ok _ => isFalse (by simp)

end BlackSwan

namespace BlackSwan

/-- C1: in AIOTrader.backtest, a decision of 1 decreases the running balance
by the row's close and adds one held share; a decision of -1 increases the
running balance by the close and removes one held share; any other decision
leaves the running balance and the share count unchanged. -/
theorem backtest_step_balance_update (d close : ℚ) (st : BTState) :
    (d = 1 → (backtestStep d close st).running_balance = st.running_balance - close
      ∧ (backtestStep d close st).holding_shares = st.holding_shares + 1)
    ∧ (d = -1 → (backtestStep d close st).running_balance = st.running_balance + close
      ∧ (backtestStep d close st).holding_shares = st.holding_shares - 1)
    ∧ (d ≠ 1 → d ≠ -1 → (backtestStep d close st).running_balance = st.running_balance
      ∧ (backtestStep d close st).holding_shares = st.holding_shares) := by
  refine ⟨fun h1 => ?_, fun h2 => ?_, fun h1 h2 => ?_⟩ <;>
    simp [backtestStep, *] <;> norm_num

/-- C1 witness: the buy branch at a concrete decision, close and state. -/
theorem backtest_step_balance_update_witness :
    (backtestStep 1 7 btInit).running_balance = btInit.running_balance - 7
      ∧ (backtestStep 1 7 btInit).holding_shares = btInit.holding_shares + 1 :=
  (backtest_step_balance_update 1 7 btInit).1 rfl

/-- C2: for non-empty labelled data, the ROI reported by AIOTrader.backtest
equals the ending balance (loop balance after liquidating all held shares at
the final close) divided by the starting balance of 10000. -/
theorem backtest_roi_vs_starting (rows : List (ℚ × ℚ)) (h : rows ≠ []) :
    backtestRoi rows = backtestEnding rows / starting_balance
      ∧ starting_balance = 10000 := by
  constructor
  · unfold backtestRoi starting_balance
    field_simp
  · rfl

/-- C2 witness: ROI for one concrete single-row backtest. -/
theorem backtest_roi_vs_starting_witness :
    backtestRoi [((1 : ℚ), (5 : ℚ))] = backtestEnding [((1 : ℚ), (5 : ℚ))] / starting_balance
      ∧ starting_balance = 10000 :=
  backtest_roi_vs_starting [((1 : ℚ), (5 : ℚ))] (by decide)

/-- The 80-20 split of the five concrete training rows fits the regressor
on the first four of them. -/
theorem c3Model_fitted :
    c3Model = ⟨some [([0], 1), ([1], 1), ([2], -1), ([3], -1)]⟩ := by
  unfold c3Model TertiaryModel.train c3TrainingRows
  norm_num

/-- C3: make_decision does not return one of the three decision values
1 (buy), -1 (sell), 0 (hold) as its docstring states; on a trained model
whose three nearest neighbours carry the labels 1, 1, -1 it returns the raw
KNN regression mean 1/3, which is none of the three. -/
theorem make_decision_not_tertiary :
    c3Model.make_decision [[0]] = Except.ok (1/3)
      ∧ (1 : ℚ)/3 ≠ 1 ∧ (1 : ℚ)/3 ≠ -1 ∧ (1 : ℚ)/3 ≠ 0 := by
  refine ⟨?_, by norm_num, by norm_num, by norm_num⟩
  rw [c3Model_fitted]
  simp [TertiaryModel.make_decision, TertiaryModel.predict, dist2,
    sortByDist, insertByDist]

/-- C4: the trader.py backtest never calls TertiaryModel.train — the models
it uses are the unfitted ones built in __init__ — so every per-row
make_decision call hits an unfitted KNeighborsRegressor and raises
NotFittedError rather than being preceded by training. -/
theorem backtest_decisions_unfitted (with_y : List (List ℚ)) :
    backtestDecisions with_y
      = with_y.map (fun _ => Except.error "NotFittedError") := rfl

/-- C5 counterexample: not every operation on the rolling-bars table merely
appends or reads; refilling a table that holds exRow with a download that
does not contain it removes exRow from the table. -/
theorem rolling_bars_refill_removes_row :
    exRow ∈ [exRow] ∧ exRow ∉ fillRollingBars [exRow] [] := by
  constructor
  · simp
  · simp [fillRollingBars]

/-- C5 amended: each _on_bar call appends exactly one row to the
rolling-bars table and leaves all existing rows unchanged, and no row is
removed by appends or reads; but _fill_rolling_bars replaces the whole
table with the fresh download (which start invokes a second time at market
open), so a refill can remove previously held rows. -/
theorem rolling_bars_growth (rb : List BarRow) (b : BarRow) (dl : List BarRow) :
    (onBarAppend rb b).length = rb.length + 1
      ∧ (onBarAppend rb b).take rb.length = rb
      ∧ (onBarAppend rb b).getLast? = some b
      ∧ fillRollingBars rb dl = dl := by
  refine ⟨?_, ?_, ?_, rfl⟩ <;>
    simp [onBarAppend, List.take_left, List.getLast?_concat]

/-- C6: _on_bar submits an order only when the symbol's trading flag (set by
backtest exactly when ROI exceeds MIN_ROI = 1.03) is on and the decision is
nonzero; with the flag off or a hold decision no order is submitted, and
every submitted order is a limit order for quantity 1 at the close rounded
to 2 decimals, side buy for decision 1 and sell for decision -1. -/
theorem on_bar_order_submission (roi d close : ℚ) (sym : String) :
    ((tradingFlagAfterBacktest roi = false ∨ d = 0) →
      onBarOrder (tradingFlagAfterBacktest roi) d close sym = Except.ok none)
    ∧ (∀ ord : LimitOrderRequest,
        onBarOrder (tradingFlagAfterBacktest roi) d close sym
          = Except.ok (some ord) →
        MIN_ROI < roi ∧ d ≠ 0
          ∧ ord.symbol = sym ∧ ord.qty = 1 ∧ ord.limit_price = round2 close
          ∧ ((d = 1 ∧ ord.side = Side.buy) ∨ (d = -1 ∧ ord.side = Side.sell))) := by
  constructor
  · rintro (hf | hd)
    · simp [onBarOrder, hf]
    · by_cases hf : tradingFlagAfterBacktest roi = false <;>
        simp [onBarOrder, hf, hd]
  · intro ord h
    by_cases hf : tradingFlagAfterBacktest roi = false
    · simp [onBarOrder, hf] at h
    · have hroi : MIN_ROI < roi := by
        have ht := eq_true_of_ne_false hf
        exact of_decide_eq_true ht
      by_cases hd0 : d = 0
      · simp [onBarOrder, hf, hd0] at h
      · by_cases hd1 : d = 1
        · simp [onBarOrder, SIDE_CONVERTER, hf, hd0, hd1] at h
          subst h
          exact ⟨hroi, hd0, rfl, rfl, rfl, Or.inl ⟨hd1, rfl⟩⟩
        · by_cases hd2 : d = -1
          · norm_num [onBarOrder, SIDE_CONVERTER, hf, hd0, hd1, hd2] at h
            subst h
            exact ⟨hroi, hd0, rfl, rfl, rfl, Or.inr ⟨hd2, rfl⟩⟩
          · simp [onBarOrder, SIDE_CONVERTER, hf, hd0, hd1, hd2] at h

/-- C6 witness: with ROI 2 and decision 1 at close 10, a buy limit order
for quantity 1 at round2 10 is submitted. -/
theorem on_bar_order_submission_witness :
    MIN_ROI < 2 ∧ (1 : ℚ) ≠ 0
      ∧ (⟨"AAPL", round2 10, 1, Side.buy⟩ : LimitOrderRequest).symbol = "AAPL"
      ∧ (⟨"AAPL", round2 10, 1, Side.buy⟩ : LimitOrderRequest).qty = 1
      ∧ (⟨"AAPL", round2 10, 1, Side.buy⟩ : LimitOrderRequest).limit_price = round2 10
      ∧ (((1 : ℚ) = 1 ∧ (⟨"AAPL", round2 10, 1, Side.buy⟩ : LimitOrderRequest).side = Side.buy)
        ∨ ((1 : ℚ) = -1 ∧ (⟨"AAPL", round2 10, 1, Side.buy⟩ : LimitOrderRequest).side = Side.sell)) :=
  (on_bar_order_submission 2 1 10 "AAPL").2 ⟨"AAPL", round2 10, 1, Side.buy⟩
    (by norm_num [onBarOrder, tradingFlagAfterBacktest, SIDE_CONVERTER, MIN_ROI])

/-- C7: a failure while fetching or parsing any symbol's candles (including
a status column not all ok) is re-raised to the caller as the same
exception: download_stock_data returns that error and no partial frame, and
the result never consults any retry attempt beyond attempt 0 of each fetch,
so changing later attempts cannot change the outcome. -/
theorem download_reraises (pre : List String) (s : String) (post : List String)
    (fetch fetch' : String → ℕ → Except String CandleResponse) (e : String)
    (hpre : ∀ p ∈ pre, ∃ rows, processSymbol (fetch p 0) = Except.ok rows)
    (hs : processSymbol (fetch s 0) = Except.error e)
    (hagree : ∀ q n, n = 0 → fetch q n = fetch' q n) :
    download_stock_data (pre ++ s :: post) fetch = Except.error e
      ∧ download_stock_data (pre ++ s :: post) fetch' = Except.error e := by
  have hsame : ∀ syms : List String,
      download_stock_data syms fetch' = download_stock_data syms fetch := by
    intro syms
    induction syms with
    | nil => rfl
    | cons q rest ih => simp [download_stock_data, ih, hagree q 0 rfl]
  have hmain : download_stock_data (pre ++ s :: post) fetch = Except.error e := by
    induction pre with
    | nil => simp [download_stock_data, hs]
    | cons p rest ih =>
      obtain ⟨rows, hp⟩ := hpre p (List.mem_cons_self p rest)
      have ih2 := ih (fun q hq => hpre q (List.mem_cons_of_mem p hq))
      simp [download_stock_data, hp, ih2]
  exact ⟨hmain, (hsame (pre ++ s :: post)).trans hmain⟩

/-- C7 witness: the AMZN fetch succeeds, the AAPL fetch raises at attempt 0,
and the function re-raises that error, even though a second attempt (which
the code never makes) would have succeeded. -/
theorem download_reraises_witness :
    download_stock_data ["AMZN", "AAPL"]
        (fun sym n => if sym = "AMZN" then Except.ok ⟨["ok"], []⟩
          else if n = 0 then Except.error "RequestException" else Except.ok ⟨["ok"], []⟩)
      = Except.error "RequestException"
    ∧ download_stock_data ["AMZN", "AAPL"]
        (fun sym n => if sym = "AMZN" then Except.ok ⟨["ok"], []⟩
          else if n = 0 then Except.error "RequestException" else Except.ok ⟨["ok"], []⟩)
      = Except.error "RequestException" :=
  download_reraises ["AMZN"] "AAPL" []
    (fun sym n => if sym = "AMZN" then Except.ok ⟨["ok"], []⟩
      else if n = 0 then Except.error "RequestException" else Except.ok ⟨["ok"], []⟩)
    (fun sym n => if sym = "AMZN" then Except.ok ⟨["ok"], []⟩
      else if n = 0 then Except.error "RequestException" else Except.ok ⟨["ok"], []⟩)
    "RequestException"
    (by intro p hp; simp at hp; subst hp; exact ⟨[], rfl⟩)
    rfl
    (by intro q n hn; rfl)

/-- C8: in the stream.py revision _make_decision returns None for every
input, so the buy and sell branches of that revision's backtest are never
taken and the running balance and share count finish at their starting
values 10000 and 0. -/
theorem stream_backtest_no_trades (rows : List StreamRow) :
    (∀ r : StreamRow, streamMakeDecision r = none)
      ∧ streamBacktest rows = (starting_balance, 0) := by
  refine ⟨fun r => rfl, ?_⟩
  induction rows with
  | nil => rfl
  | cons r rest ih =>
    simp only [streamBacktest, List.foldl_cons] at ih ⊢
    simpa [streamMakeDecision, streamBacktestStep] using ih

/-- C9: market_open_at_time never returns a boolean: because | binds
tighter than the comparisons, every call evaluates False | time(14,30) and
raises TypeError — in particular at 15:00:00 UTC, where the documented
behaviour would return true. -/
theorem market_open_at_time_raises :
    (∀ t, market_open_at_time t
      = Except.error "TypeError: unsupported operand types for |")
    ∧ market_open_at_time (15 * 3600)
      = Except.error "TypeError: unsupported operand types for |"
    ∧ market_open_at_time_documented (15 * 3600) = true :=
  ⟨fun _t => rfl, rfl, rfl⟩

/-- C10: fibonacci, which model.py, trader.py and stream.py all import from
util and which feature engineering calls to choose the log-return lags, is
not among the names util.py defines, so these imports raise ImportError
rather than succeeding. -/
theorem fibonacci_not_defined_in_util :
    "fibonacci" ∈ modelUtilNames
      ∧ "fibonacci" ∈ traderUtilNames
      ∧ "fibonacci" ∈ streamUtilNames
      ∧ "fibonacci" ∉ utilDefinedNames := by
  refine ⟨by simp [modelUtilNames], by simp [traderUtilNames],
    by simp [streamUtilNames], by simp [utilDefinedNames]⟩

end BlackSwan
